import Mathlib

/-!
Shallow embedding of the travesty-userapi realtime client
(class `TravestyClient` in `src/index.ts`) together with proofs about
its event-correlation engine, its session lifecycle and its dispatch
layer.

Modelling conventions, all derived from the source:

* JSON values produced by `JSON.parse` are modelled by the inductive
  type `Json` (numbers as integers; numeric precision plays no role in
  any property proved here).  A raw websocket text frame is modelled as
  an `Option Json`: `none` stands for a frame rejected by `JSON.parse`
  (the `catch` branch of `handleWSMessage`), `some j` for a frame that
  parsed to the value `j`.  Reading an absent property yields
  `Json.undef`, as in JavaScript.

* The mutable instance fields of the client object are collected in
  `ClientState`.  The socket handle `this.ws` and the timer handle
  `this.reconnectTimeout` are modelled by booleans recording whether
  the field is set (non-null).

* `this.emit(...)` calls inside a method are modelled by returning the
  list of client events the method hands to the dispatch layer; the
  dispatch layer itself (the inherited Node `EventEmitter.emit`) is
  modelled separately by `nodeEmit` below.  `this.warn` diagnostics are
  returned as a list of strings; `this.log` debug traces are not
  modelled.  Property accesses performed only to build debug log text
  (for example `msg.id` in the `new_message` branch) are likewise not
  modelled; payload-carrying claims are stated for record (object)
  payloads, on which such accesses cannot fail.
-/

/-- A JSON value as returned by `JSON.parse`, extended with `undef`
for the JavaScript `undefined` produced by reading an absent field. -/
inductive Json where
  | null
  | undef
  | bool (b : Bool)
  | num (n : Int)
  | str (s : String)
  | arr (elems : List Json)
  | obj (fields : List (String × Json))

/-- Property lookup on an object field list (first binding wins; the
field lists produced by `JSON.parse` carry each key at most once). -/
def getPairs : List (String × Json) → String → Json
  | [], _ => Json.undef
  | p :: rest, k => if p.1 = k then p.2 else getPairs rest k

/-- Property assignment on an object field list: update the binding in
place when the key is present, otherwise append it, exactly as
JavaScript property assignment behaves on an object. -/
def setPairs : List (String × Json) → String → Json → List (String × Json)
  | [], k, v => [(k, v)]
  | p :: rest, k, v => if p.1 = k then (k, v) :: rest else p :: setPairs rest k v

/-- JavaScript property read `j[k]`; non-objects yield `undefined`. -/
def Json.getField : Json → String → Json
  | Json.obj fs, k => getPairs fs k
  | _, _ => Json.undef

/-- JavaScript property write `j[k] = v` on an object; on a non-object
the value is returned unchanged (the write has no observable effect on
the value itself). -/
def Json.setField : Json → String → Json → Json
  | Json.obj fs, k, v => Json.obj (setPairs fs k v)
  | j, _, _ => j

/-- JavaScript truthiness of a parsed value, as used by the
`if (this.lastMessage)` test. -/
def Json.truthy : Json → Bool
  | Json.null => false
  | Json.undef => false
  | Json.bool b => b
  | Json.num n => n != 0
  | Json.str s => s != ""
  | Json.arr _ => true
  | Json.obj _ => true

/-- Strict equality of a parsed value with a string literal: the
comparison performed by each `case` label of the `switch` in
`handleWSMessage` (a non-string never equals a string literal). -/
def Json.isStr : Json → String → Bool
  | Json.str s, t => s == t
  | _, _ => false

/-- The application-facing events of the client, one constructor per
entry of `TravestyClientEvents` in the source. -/
inductive ClientEvent where
  | messageCreate (msg : Json)
  | messageDelete (msgId : Json)
  | typing (evt : Json)
  | reactionAdd (evt : Json)
  | reactionRemove (evt : Json)
  | memberRolesUpdate (evt : Json)
  | raw (evt : Json)
  | logout

/-- Recognizer for `messageCreate` events. -/
def ClientEvent.isMessageCreate : ClientEvent → Bool
  | ClientEvent.messageCreate _ => true
  | _ => false

/-- The mutable instance fields of `TravestyClient`.  `ws` and
`reconnectTimeout` record whether the corresponding handle is set. -/
structure ClientState where
  ws : Bool
  cookie : Option String
  email : Option String
  password : Option String
  reconnectTimeout : Bool
  lastMessage : Json

/-- The field values installed by the constructor of `TravestyClient`. -/
def initialState : ClientState :=
  { ws := false, cookie := none, email := none, password := none,
    reconnectTimeout := false, lastMessage := Json.null }

/-- Diagnostic emitted by `this.warn` when `JSON.parse` rejects a frame. -/
def parseFailDiag : String := "Failed to parse message"

/-- Diagnostic emitted by `this.warn` when a notification arrives with
no pending message to attach. -/
def orphanNotifDiag : String := "Notification received but no lastMessage to attach"

/-- A well-formed server frame with the given action discriminator and
data payload. -/
def mkFrame (action : String) (data : Json) : Json :=
  Json.obj [("action", Json.str action), ("data", data)]

/-- Whether a (possibly unparseable) frame carries the given action
discriminator. -/
def frameHasAction (f : Option Json) (a : String) : Bool :=
  match f with
  | some e => (e.getField "action").isStr a
  | none => false

/-- The body of `handleWSMessage` (src/index.ts lines 274 to 343): the
input is the `JSON.parse` result of the raw text frame, the output is
the updated client state, the client events handed to the dispatch
layer, and the warning diagnostics produced. -/
def handleWSMessage (st : ClientState) (parsed : Option Json) :
    ClientState × List ClientEvent × List String :=
  match parsed with
  | none => (st, [], [parseFailDiag])
  | some event =>
    let action := event.getField "action"
    if action.isStr "new_message" then
      ({ st with lastMessage := event.getField "data" }, [], [])
    else if action.isStr "new_notification" then
      if st.lastMessage.truthy then
        ({ st with lastMessage := Json.null },
         [ClientEvent.messageCreate
            (st.lastMessage.setField "channelId"
              ((event.getField "data").getField "id"))],
         [])
      else
        (st, [], [orphanNotifDiag])
    else if action.isStr "delete_message" then
      (st, [ClientEvent.messageDelete (event.getField "data")], [])
    else if action.isStr "startTyping" || action.isStr "stopTyping" then
      (st, [ClientEvent.typing event], [])
    else if action.isStr "add_reaction" then
      (st, [ClientEvent.reactionAdd (event.getField "data")], [])
    else if action.isStr "delete_reaction" then
      (st, [ClientEvent.reactionRemove (event.getField "data")], [])
    else if action.isStr "update_member_roles" then
      (st, [ClientEvent.memberRolesUpdate (event.getField "data")], [])
    else
      (st, [ClientEvent.raw event], [])

/-- Processing a sequence of decoded frames: each frame is handed to
`handleWSMessage` in order, accumulating events and diagnostics. -/
def processFrames : ClientState → List (Option Json) → ClientState × List ClientEvent × List String
  | st, [] => (st, [], [])
  | st, f :: rest =>
    ((processFrames (handleWSMessage st f).1 rest).1,
     (handleWSMessage st f).2.1 ++ (processFrames (handleWSMessage st f).1 rest).2.1,
     (handleWSMessage st f).2.2 ++ (processFrames (handleWSMessage st f).1 rest).2.2)

/-- JavaScript truthiness of a string, as used by the tests on
`this.cookie`, `this.email` and `this.password` (empty string is falsy). -/
def truthyStr (s : String) : Bool := s != ""

/-- Truthiness of a nullable string field. -/
def truthyOptStr : Option String → Bool
  | none => false
  | some s => truthyStr s

/-- Character-list form of the test `c.startsWith(\x27vlk=\x27)` applied
by `login` to each set-cookie header. -/
def startsWithVlkChars (l : List Char) : Bool :=
  match l with
  | c1 :: c2 :: c3 :: c4 :: _ => c1 == 'v' && c2 == 'l' && c3 == 'k' && c4 == '='
  | _ => false

/-- The predicate passed to `.find` on the set-cookie header list. -/
def jsStartsWithVlk (c : String) : Bool := startsWithVlkChars c.data

/-- `cookieHeader.split(\x27;\x27)[0]`: the prefix of the header before
the first semicolon. -/
def splitFirst (c : String) : String :=
  String.mk (c.data.takeWhile (fun ch => ch != ';'))

/-- The error message thrown by `login` when no session cookie is found. -/
def authFailureMsg : String := "Login failed, no session cookie received"

/-- The error message thrown by `connectWS` and `sendMessage` without a cookie. -/
def mustLoginMsg : String := "You must login first"

/-- The body of `connectWS` as far as client state goes (src/index.ts
lines 195 to 248): throws when no cookie is held, otherwise installs a
fresh socket handle.  The handlers it registers are modelled by the
trace actions below. -/
def connectWS (st : ClientState) : Except String ClientState :=
  if truthyOptStr st.cookie then Except.ok { st with ws := true }
  else Except.error mustLoginMsg

/-- The body of `login` (src/index.ts lines 156 to 169).  The
authentication response is an input: `headers` is the value of
`res.headers[set-cookie]`, with `none` for an absent header list.  The
credentials are stored before the cookie is examined; on a missing
cookie the error is thrown with the credentials already replaced.  The
result pairs the state left behind with the outcome of the call. -/
def login (st : ClientState) (em pw : String) (headers : Option (List String)) :
    ClientState × Except String Unit :=
  let st1 := { st with email := some em, password := some pw }
  match (headers.getD []).find? jsStartsWithVlk with
  | none => (st1, Except.error authFailureMsg)
  | some h =>
    let st2 := { st1 with cookie := some (splitFirst h) }
    match connectWS st2 with
    | Except.ok st3 => (st3, Except.ok ())
    | Except.error e => (st2, Except.error e)

/-- The body of `logout` (src/index.ts lines 174 to 190): clears the
credentials and cookie, drops the socket handle, clears the reconnect
timer, and emits exactly one `logout` client event. -/
def logout (st : ClientState) : ClientState × List ClientEvent :=
  ({ st with cookie := none, email := none, password := none,
             ws := false, reconnectTimeout := false },
   [ClientEvent.logout])

/-- The body of `reconnect` (src/index.ts lines 257 to 269), run when
the reconnect timer fires.  `headers` is the authentication response
used if the re-login path is taken.  The boolean records whether a
connection attempt was made (a login request sent or a socket opened);
when `connectWS` throws before opening a socket, the `catch` branch
schedules another timer and no attempt is observed. -/
def reconnect (st : ClientState) (headers : Option (List String)) :
    ClientState × List ClientEvent × Bool :=
  if !truthyOptStr st.cookie && truthyOptStr st.email && truthyOptStr st.password then
    match login st (st.email.getD "") (st.password.getD "") headers with
    | (st1, Except.ok _) => (st1, [], true)
    | (st1, Except.error _) => ({ st1 with reconnectTimeout := true }, [], true)
  else
    match connectWS st with
    | Except.ok st1 => (st1, [], true)
    | Except.error _ => ({ st with reconnectTimeout := true }, [], false)

/-- The asynchronous callbacks that can run on the event loop after a
synchronous call returns: delivery of a socket close event (whose
handler schedules the reconnect timer) and the firing of a pending
reconnect timer (which runs `reconnect` with the authentication
response it happens to receive). -/
inductive WsAction where
  | deliverClose
  | fireTimer (headers : Option (List String))

/-- One event-loop step.  A timer can fire only while it is pending;
`clearTimeout` in `logout` removes a pending timer, so a cleared timer
never fires.  The step yields the events emitted and whether a
connection attempt was observed. -/
def stepAction (st : ClientState) (a : WsAction) : ClientState × List ClientEvent × Bool :=
  match a with
  | WsAction.deliverClose => ({ st with reconnectTimeout := true }, [], false)
  | WsAction.fireTimer headers =>
    if st.reconnectTimeout then reconnect { st with reconnectTimeout := false } headers
    else (st, [], false)

/-- Run a sequence of event-loop steps, accumulating the events
emitted and whether any connection attempt was observed. -/
def runActions : ClientState → List WsAction → ClientState × List ClientEvent × Bool
  | st, [] => (st, [], false)
  | st, a :: rest =>
    ((runActions (stepAction st a).1 rest).1,
     (stepAction st a).2.1 ++ (runActions (stepAction st a).1 rest).2.1,
     (stepAction st a).2.2 || (runActions (stepAction st a).1 rest).2.2)

/-- An observer registered on the emitter, tagged with an
identifier so that invocation order is observable; `run` returns
`Except.error` when the observer throws. -/
structure Listener where
  id : Nat
  run : Json → Except String Unit

/-- The dispatch loop the source inherits: `this.emit` delegates to
Node `EventEmitter.emit` (src/index.ts lines 146 to 151), which
synchronously calls the listeners registered for the event in
registration order; an exception thrown by a listener propagates to
the caller of `emit` and the remaining listeners are not called.  The
result lists the identifiers of the listeners that were invoked and
the exception propagated to the caller, if any. -/
def nodeEmit : List Listener → Json → List Nat × Option String
  | [], _ => ([], none)
  | l :: rest, payload =>
    match l.run payload with
    | Except.error e => ([l.id], some e)
    | Except.ok _ =>
      (l.id :: (nodeEmit rest payload).1, (nodeEmit rest payload).2)

/-- The action discriminators named by the `case` labels of the
`switch` in `handleWSMessage`. -/
def isKnownAction (a : Json) : Bool :=
  a.isStr "new_message" || a.isStr "new_notification" || a.isStr "delete_message" ||
  a.isStr "startTyping" || a.isStr "stopTyping" || a.isStr "add_reaction" ||
  a.isStr "delete_reaction" || a.isStr "update_member_roles"

/-- A concrete observer that throws on every invocation. -/
def obsFailing : Listener := ⟨0, fun _ => Except.error "observer failure"⟩

/-- A concrete observer that succeeds on every invocation. -/
def obsSecond : Listener := ⟨1, fun _ => Except.ok ()⟩

example :
    handleWSMessage initialState (some (mkFrame "new_message" (Json.obj [("id", Json.str "m1")])))
      = ({ initialState with lastMessage := Json.obj [("id", Json.str "m1")] }, [], []) := rfl

example :
    (processFrames initialState
      [some (mkFrame "new_message" (Json.obj [("id", Json.str "m1"), ("text", Json.str "hi")])),
       some (mkFrame "new_notification" (Json.obj [("id", Json.str "c1")]))]).2.1
      = [ClientEvent.messageCreate
          (Json.obj [("id", Json.str "m1"), ("text", Json.str "hi"), ("channelId", Json.str "c1")])] := rfl

example : (login initialState "e" "p" (some ["vlk=abc; Path=/"])).2 = Except.ok () := rfl

example : (login initialState "e" "p" (some ["sid=abc"])).2 = Except.error authFailureMsg := rfl

/-! ### Helper lemmas -/

theorem getPairs_setPairs_self (fs : List (String × Json)) (k : String) (v : Json) :
    getPairs (setPairs fs k v) k = v := by
  induction fs with
  | nil => simp [setPairs, getPairs]
  | cons p rest ih =>
    by_cases h : p.1 = k
    · simp [setPairs, getPairs, h]
    · simp [setPairs, getPairs, h, ih]

theorem getPairs_setPairs_other (fs : List (String × Json)) (k k' : String) (v : Json)
    (h : k' ≠ k) : getPairs (setPairs fs k v) k' = getPairs fs k' := by
  have hne : ¬ (k = k') := fun hk => h hk.symm
  induction fs with
  | nil => simp [setPairs, getPairs, hne]
  | cons p rest ih =>
    by_cases hp : p.1 = k
    · subst hp
      simp [setPairs, getPairs, hne]
    · simp [setPairs, getPairs, hp, ih]

/-- A frame that is neither a `new_message` nor a `new_notification`
leaves the client state untouched and contributes no `messageCreate`
event. -/
theorem handleWSMessage_passthrough (st : ClientState) (f : Option Json)
    (h1 : frameHasAction f "new_message" = false)
    (h2 : frameHasAction f "new_notification" = false) :
    (handleWSMessage st f).1 = st ∧
    (handleWSMessage st f).2.1.filter ClientEvent.isMessageCreate = [] := by
  cases f with
  | none => simp [handleWSMessage]
  | some e =>
    simp only [frameHasAction] at h1 h2
    simp only [handleWSMessage, h1, h2, Bool.false_eq_true, if_false]
    split_ifs <;> simp [ClientEvent.isMessageCreate]

/-- Processing a block of frames none of which is a `new_message` or a
`new_notification` preserves the whole client state and produces no
`messageCreate` event. -/
theorem processFrames_passthrough (mid : List (Option Json)) :
    ∀ st : ClientState,
      (∀ f ∈ mid, frameHasAction f "new_message" = false ∧
                  frameHasAction f "new_notification" = false) →
      (processFrames st mid).1 = st ∧
      (processFrames st mid).2.1.filter ClientEvent.isMessageCreate = [] := by
  induction mid with
  | nil => intro st _; simp [processFrames]
  | cons f rest ih =>
    intro st h
    have hf := h f (List.mem_cons_self f rest)
    have hrest := fun g hg => h g (List.mem_cons_of_mem f hg)
    have hstep := handleWSMessage_passthrough st f hf.1 hf.2
    have hrec := ih (handleWSMessage st f).1 hrest
    simp only [processFrames, List.filter_append]
    refine ⟨hrec.1.trans hstep.1, ?_⟩
    rw [hstep.2, hrec.2]
    rfl

/-- Frame processing distributes over list append. -/
theorem processFrames_append (l1 l2 : List (Option Json)) :
    ∀ st : ClientState,
      processFrames st (l1 ++ l2)
        = ((processFrames (processFrames st l1).1 l2).1,
           (processFrames st l1).2.1 ++ (processFrames (processFrames st l1).1 l2).2.1,
           (processFrames st l1).2.2 ++ (processFrames (processFrames st l1).1 l2).2.2) := by
  induction l1 with
  | nil => intro st; simp [processFrames]
  | cons f rest ih =>
    intro st
    simp [processFrames, ih]

/-- A single frame contributes at most one `messageCreate` event, and
only when it is a `new_notification` frame. -/
theorem handleWSMessage_mc_le (st : ClientState) (f : Option Json) :
    ((handleWSMessage st f).2.1.filter ClientEvent.isMessageCreate).length
      ≤ if frameHasAction f "new_notification" then 1 else 0 := by
  cases f with
  | none => simp [handleWSMessage]
  | some e =>
    simp only [handleWSMessage, frameHasAction]
    split_ifs <;> simp_all [ClientEvent.isMessageCreate]

/-- Across any frame sequence, the number of `messageCreate` events is
bounded by the number of `new_notification` frames. -/
theorem processFrames_mc_le (frames : List (Option Json)) :
    ∀ st : ClientState,
      ((processFrames st frames).2.1.filter ClientEvent.isMessageCreate).length
        ≤ (frames.filter (fun f => frameHasAction f "new_notification")).length := by
  induction frames with
  | nil => intro st; simp [processFrames]
  | cons f rest ih =>
    intro st
    have h1 := handleWSMessage_mc_le st f
    have h2 := ih (handleWSMessage st f).1
    simp only [processFrames, List.filter_append, List.length_append, List.filter_cons]
    by_cases hf : frameHasAction f "new_notification" = true
    · simp only [hf, if_pos trivial, List.length_cons]
      simp only [hf, if_pos trivial] at h1
      omega
    · simp only [hf]
      simp only [hf, Bool.false_eq_true, if_false] at h1 ⊢
      omega

/-- A header accepted by the vlk test keeps a nonempty prefix before
the first semicolon. -/
theorem takeWhile_vlk_ne_nil (l : List Char) (h : startsWithVlkChars l = true) :
    l.takeWhile (fun ch => ch != ';') ≠ [] := by
  cases l with
  | nil => simp [startsWithVlkChars] at h
  | cons c1 l1 =>
    cases l1 with
    | nil => simp [startsWithVlkChars] at h
    | cons c2 l2 =>
      cases l2 with
      | nil => simp [startsWithVlkChars] at h
      | cons c3 l3 =>
        cases l3 with
        | nil => simp [startsWithVlkChars] at h
        | cons c4 rest =>
          simp only [startsWithVlkChars, Bool.and_eq_true, beq_iff_eq] at h
          obtain ⟨⟨⟨h1, h2⟩, h3⟩, h4⟩ := h
          subst h1
          simp [List.takeWhile_cons]

/-- The cookie value stored by a successful `login` is a truthy
string, so the subsequent `connectWS` cannot hit its login guard. -/
theorem splitFirst_truthy (c : String) (hc : jsStartsWithVlk c = true) :
    truthyStr (splitFirst c) = true := by
  have h := takeWhile_vlk_ne_nil c.data hc
  unfold splitFirst truthyStr
  rcases hl : c.data.takeWhile (fun ch => ch != ';') with _ | ⟨a, t⟩
  · exact absurd hl h
  · simp only [bne_iff_ne, ne_eq]
    intro he
    have h2 : (a :: t : List Char) = ("" : String).data := congrArg String.data he
    have h0 : ("" : String).data = [] := rfl
    rw [h0] at h2
    exact List.noConfusion h2

/-- After `logout` has cleared the session, a single event-loop step
emits nothing, makes no connection attempt, and leaves the session
cleared. -/
theorem stepAction_loggedOut (st : ClientState) (a : WsAction)
    (h1 : st.cookie = none) (h2 : st.email = none) (h3 : st.password = none) :
    (stepAction st a).2.1 = [] ∧ (stepAction st a).2.2 = false
    ∧ (stepAction st a).1.cookie = none ∧ (stepAction st a).1.email = none
    ∧ (stepAction st a).1.password = none := by
  cases a with
  | deliverClose => simp [stepAction, h1, h2, h3]
  | fireTimer headers =>
    simp only [stepAction]
    by_cases ht : st.reconnectTimeout = true
    · rw [if_pos ht]
      simp [reconnect, truthyOptStr, connectWS, h1, h2, h3]
    · rw [if_neg ht]
      exact ⟨rfl, rfl, h1, h2, h3⟩

/-- After `logout` has cleared the session, no sequence of event-loop
steps emits an event or makes a connection attempt. -/
theorem runActions_loggedOut (acts : List WsAction) :
    ∀ st : ClientState, st.cookie = none → st.email = none → st.password = none →
      (runActions st acts).2.1 = [] ∧ (runActions st acts).2.2 = false := by
  induction acts with
  | nil => intro st _ _ _; exact ⟨rfl, rfl⟩
  | cons a rest ih =>
    intro st h1 h2 h3
    have hs := stepAction_loggedOut st a h1 h2 h3
    have hr := ih (stepAction st a).1 hs.2.2.1 hs.2.2.2.1 hs.2.2.2.2
    simp only [runActions]
    constructor
    · rw [hs.1, hr.1]
      rfl
    · rw [hs.2.1, hr.2]
      rfl

/-! ### Claims -/

/-- Claim C1: for every decoded frame sequence consisting of a
`new_message` frame with payload `m` followed by a `new_notification`
frame with payload `n`, with no intervening `new_message` frame (and
no earlier `new_notification` consuming the pending message),
processing the sequence emits exactly one `messageCreate` client event
whose payload carries the fields of `m` plus a `channelId` field equal
to the `id` field of `n`. -/
theorem C1_correlation (st : ClientState) (mfs : List (String × Json)) (n : Json)
    (mid : List (Option Json))
    (hmid : ∀ f ∈ mid, frameHasAction f "new_message" = false ∧
                       frameHasAction f "new_notification" = false) :
    (processFrames st (some (mkFrame "new_message" (Json.obj mfs)) ::
        (mid ++ [some (mkFrame "new_notification" n)]))).2.1.filter
        ClientEvent.isMessageCreate
      = [ClientEvent.messageCreate
          ((Json.obj mfs).setField "channelId" (n.getField "id"))]
    ∧ ((Json.obj mfs).setField "channelId" (n.getField "id")).getField "channelId"
        = n.getField "id"
    ∧ ∀ k : String, k ≠ "channelId" →
        ((Json.obj mfs).setField "channelId" (n.getField "id")).getField k
          = (Json.obj mfs).getField k := by
  have h1 : handleWSMessage st (some (mkFrame "new_message" (Json.obj mfs)))
      = ({ st with lastMessage := Json.obj mfs }, [], []) := rfl
  have hmidp := processFrames_passthrough mid { st with lastMessage := Json.obj mfs } hmid
  have h2 : handleWSMessage { st with lastMessage := Json.obj mfs }
        (some (mkFrame "new_notification" n))
      = ({ st with lastMessage := Json.null },
         [ClientEvent.messageCreate ((Json.obj mfs).setField "channelId" (n.getField "id"))],
         []) := rfl
  refine ⟨?_, ?_, ?_⟩
  · simp only [processFrames, h1, processFrames_append, hmidp.1, h2, List.filter_append,
      hmidp.2, List.filter_nil, List.filter_cons, List.nil_append, List.append_nil]
    simp [ClientEvent.isMessageCreate]
  · simp [Json.setField, Json.getField, getPairs_setPairs_self]
  · intro k hk
    simp [Json.setField, Json.getField, getPairs_setPairs_other mfs "channelId" k _ hk]

/-- Witness for C1 at the concrete scenario of the specification:
message `m1` with text `hi`, then notification for channel `c1`. -/
theorem C1_witness :
    (processFrames initialState
        (some (mkFrame "new_message" (Json.obj [("id", Json.str "m1"), ("text", Json.str "hi")])) ::
          ([] ++ [some (mkFrame "new_notification" (Json.obj [("id", Json.str "c1")]))]))).2.1.filter
        ClientEvent.isMessageCreate
      = [ClientEvent.messageCreate
          ((Json.obj [("id", Json.str "m1"), ("text", Json.str "hi")]).setField "channelId"
            ((Json.obj [("id", Json.str "c1")]).getField "id"))] :=
  (C1_correlation initialState [("id", Json.str "m1"), ("text", Json.str "hi")]
    (Json.obj [("id", Json.str "c1")]) [] (by simp)).1

/-- Claim C2: the pending-message buffer has capacity exactly one.
Processing a `new_message` frame from any state stores the payload as
the sole pending message, unconditionally overwriting any previous
unmatched entry, and emits no client event; consequently, across any
frame sequence at most one `messageCreate` event is emitted per
`new_notification` frame processed. -/
theorem C2_singleSlot :
    (∀ (st : ClientState) (mfs : List (String × Json)),
        handleWSMessage st (some (mkFrame "new_message" (Json.obj mfs)))
          = ({ st with lastMessage := Json.obj mfs }, [], []))
    ∧ (∀ (st : ClientState) (frames : List (Option Json)),
        ((processFrames st frames).2.1.filter ClientEvent.isMessageCreate).length
          ≤ (frames.filter (fun f => frameHasAction f "new_notification")).length) :=
  ⟨fun _ _ => rfl, fun st frames => processFrames_mc_le frames st⟩

/-- Claim C3: a `new_notification` frame arriving while no pending
message is held emits zero client events, produces the orphan
diagnostic, and leaves the state unchanged (the notification is
dropped). -/
theorem C3_orphanNotification (st : ClientState) (n : Json)
    (h : st.lastMessage.truthy = false) :
    handleWSMessage st (some (mkFrame "new_notification" n)) = (st, [], [orphanNotifDiag]) := by
  have hEq : handleWSMessage st (some (mkFrame "new_notification" n))
      = if st.lastMessage.truthy then
          ({ st with lastMessage := Json.null },
           [ClientEvent.messageCreate
              (st.lastMessage.setField "channelId" (n.getField "id"))],
           ([] : List String))
        else (st, [], [orphanNotifDiag]) := rfl
  rw [hEq, if_neg]
  simp [h]

/-- Witness for C3: an orphan notification on the initial state. -/
theorem C3_witness :
    handleWSMessage initialState
        (some (mkFrame "new_notification" (Json.obj [("id", Json.str "c1")])))
      = (initialState, [], [orphanNotifDiag]) :=
  C3_orphanNotification initialState (Json.obj [("id", Json.str "c1")]) rfl

/-- Claim C4: a text frame rejected by the decoder is dropped inside
`handleWSMessage` (the error is caught, never rethrown): no client
event is emitted, one parse diagnostic is produced, and the client
state, in particular the socket handle, is unchanged, so the
connection stays open. -/
theorem C4_decodeFailureDropped (st : ClientState) :
    handleWSMessage st none = (st, [], [parseFailDiag]) := rfl

/-- Claim C5: a well-formed frame whose action discriminator is not in
the known set produces exactly one `raw` client event carrying the
original frame unmodified, with no state change. -/
theorem C5_unrecognizedRaw (st : ClientState) (e : Json)
    (h : isKnownAction (e.getField "action") = false) :
    handleWSMessage st (some e) = (st, [ClientEvent.raw e], []) := by
  unfold isKnownAction at h
  have hsp : ∀ a b : Bool, (a || b) = false → a = false ∧ b = false := by decide
  obtain ⟨h, h8⟩ := hsp _ _ h
  obtain ⟨h, h7⟩ := hsp _ _ h
  obtain ⟨h, h6⟩ := hsp _ _ h
  obtain ⟨h, h5⟩ := hsp _ _ h
  obtain ⟨h, h4⟩ := hsp _ _ h
  obtain ⟨h, h3⟩ := hsp _ _ h
  obtain ⟨h1, h2⟩ := hsp _ _ h
  simp [handleWSMessage, h1, h2, h3, h4, h5, h6, h7, h8]

/-- Witness for C5: a frame with an unknown action discriminator. -/
theorem C5_witness :
    handleWSMessage initialState
        (some (Json.obj [("action", Json.str "brand_new"), ("data", Json.null)]))
      = (initialState,
         [ClientEvent.raw (Json.obj [("action", Json.str "brand_new"), ("data", Json.null)])],
         []) :=
  C5_unrecognizedRaw initialState
    (Json.obj [("action", Json.str "brand_new"), ("data", Json.null)]) rfl

/-- Claim C6: `login` fails with the authentication error if and only
if no session cookie (a set-cookie header starting with `vlk=`) is
present in the authentication response; on success it persists the
supplied credentials in memory and triggers connection establishment
(a fresh socket handle is installed). -/
theorem C6_loginCookie (st : ClientState) (em pw : String) (headers : Option (List String)) :
    (((login st em pw headers).2 = Except.error authFailureMsg) ↔
       (headers.getD []).find? jsStartsWithVlk = none)
    ∧ ((headers.getD []).find? jsStartsWithVlk ≠ none →
        (login st em pw headers).2 = Except.ok ()
        ∧ (login st em pw headers).1.email = some em
        ∧ (login st em pw headers).1.password = some pw
        ∧ (login st em pw headers).1.ws = true) := by
  constructor
  · constructor
    · intro herr
      by_contra hne
      rcases Option.ne_none_iff_exists'.mp hne with ⟨hh, hfind⟩
      have hv : jsStartsWithVlk hh = true := List.find?_some hfind
      have ht := splitFirst_truthy hh hv
      simp [login, hfind, connectWS, truthyOptStr, ht] at herr
    · intro hnone
      simp [login, hnone]
  · intro hne
    rcases Option.ne_none_iff_exists'.mp hne with ⟨hh, hfind⟩
    have hv : jsStartsWithVlk hh = true := List.find?_some hfind
    have ht := splitFirst_truthy hh hv
    simp [login, hfind, connectWS, truthyOptStr, ht]

/-- Witness for C6: a response carrying a vlk cookie logs in
successfully; a response with no headers fails with the
authentication error. -/
theorem C6_witness :
    (login initialState "user" "pw" (some ["vlk=abc; Path=/"])).2 = Except.ok ()
    ∧ (login initialState "user" "pw" none).2 = Except.error authFailureMsg :=
  ⟨((C6_loginCookie initialState "user" "pw" (some ["vlk=abc; Path=/"])).2 (by decide)).1,
   (C6_loginCookie initialState "user" "pw" none).1.mpr rfl⟩

/-- Claim C7: `logout` called in any state emits exactly one `logout`
event and clears the pending reconnect timer; afterwards no sequence
of event-loop steps (close-event deliveries, timer firings) emits an
event or produces a connection attempt; and `logout` is idempotent:
on the already-logged-out state it is a no-op beyond the event
emission. -/
theorem C7_logout (st : ClientState) (acts : List WsAction) :
    (logout st).2 = [ClientEvent.logout]
    ∧ (logout st).1.reconnectTimeout = false
    ∧ (runActions (logout st).1 acts).2.1 = []
    ∧ (runActions (logout st).1 acts).2.2 = false
    ∧ logout (logout st).1 = ((logout st).1, [ClientEvent.logout]) :=
  ⟨rfl, rfl,
   (runActions_loggedOut acts (logout st).1 rfl rfl rfl).1,
   (runActions_loggedOut acts (logout st).1 rfl rfl rfl).2,
   rfl⟩

/-- Claim C8 as amended: under the inherited Node emitter semantics,
`publish` invokes observers in registration order only up to and
including the first observer that throws; that observer's exception is
propagated to the caller of `emit` (the frame-processing path) and the
remaining observers for that event are not invoked. -/
theorem C8_amended (pre : List Listener) (l : Listener) (rest : List Listener)
    (p : Json) (e : String)
    (hpre : ∀ x ∈ pre, x.run p = Except.ok ())
    (hl : l.run p = Except.error e) :
    nodeEmit (pre ++ l :: rest) p = (pre.map Listener.id ++ [l.id], some e) := by
  induction pre with
  | nil => simp [nodeEmit, hl]
  | cons x xs ih =>
    have hx := hpre x (List.mem_cons_self x xs)
    have hxs : ∀ y ∈ xs, y.run p = Except.ok () :=
      fun y hy => hpre y (List.mem_cons_of_mem x hy)
    simp [nodeEmit, hx, ih hxs]

/-- Witness for the amended C8: with three registered observers where
the second throws, exactly the first two are invoked and the exception
reaches the caller of `emit`. -/
theorem C8_witness :
    nodeEmit [obsSecond, obsFailing, obsSecond] Json.null = ([1, 0], some "observer failure") :=
  C8_amended [obsSecond] obsFailing [obsSecond] Json.null "observer failure"
    (fun x hx => by rw [List.mem_singleton] at hx; subst hx; rfl) rfl

/-- Counterexample to Claim C8 as stated: with two registered
observers for the same event, the first of which throws, the second
observer is not invoked and the failure is propagated to the caller of
`emit`, which is the frame-processing path. -/
theorem C8_counterexample :
    ¬ (1 ∈ (nodeEmit [obsFailing, obsSecond] Json.null).1
        ∧ (nodeEmit [obsFailing, obsSecond] Json.null).2 = none) := by
  decide

/-- Claim C9: after processing any `new_notification` frame from a
reachable buffer state (no pending message, or a pending message
record), the pending slot is empty; a pending message, when present,
is consumed into exactly one `messageCreate` emission and the slot is
cleared, and otherwise the state is unchanged. -/
theorem C9_slotCleared (st : ClientState) (n : Json)
    (_hlm : st.lastMessage = Json.null ∨ ∃ fs, st.lastMessage = Json.obj fs) :
    ((handleWSMessage st (some (mkFrame "new_notification" n))).1.lastMessage).truthy = false
    ∧ (st.lastMessage.truthy = true →
        handleWSMessage st (some (mkFrame "new_notification" n))
          = ({ st with lastMessage := Json.null },
             [ClientEvent.messageCreate
                (st.lastMessage.setField "channelId" (n.getField "id"))],
             []))
    ∧ (st.lastMessage.truthy = false →
        handleWSMessage st (some (mkFrame "new_notification" n))
          = (st, [], [orphanNotifDiag])) := by
  have hEq : handleWSMessage st (some (mkFrame "new_notification" n))
      = if st.lastMessage.truthy then
          ({ st with lastMessage := Json.null },
           [ClientEvent.messageCreate
              (st.lastMessage.setField "channelId" (n.getField "id"))],
           ([] : List String))
        else (st, [], [orphanNotifDiag]) := rfl
  by_cases ht : st.lastMessage.truthy = true
  · rw [hEq, if_pos ht]
    exact ⟨rfl, fun _ => rfl, fun hf => absurd ht (by simp [hf])⟩
  · have ht' : st.lastMessage.truthy = false := by
      revert ht
      cases st.lastMessage.truthy <;> simp
    rw [hEq, if_neg ht]
    exact ⟨ht', fun htp => absurd htp ht, fun _ => rfl⟩

/-- Witness for C9: a pending message record is consumed and the slot
is empty afterwards. -/
theorem C9_witness :
    ((handleWSMessage { initialState with lastMessage := Json.obj [("id", Json.str "m1")] }
        (some (mkFrame "new_notification" (Json.obj [("id", Json.str "c1")])))).1.lastMessage).truthy
      = false :=
  (C9_slotCleared { initialState with lastMessage := Json.obj [("id", Json.str "m1")] }
    (Json.obj [("id", Json.str "c1")])
    (Or.inr ⟨[("id", Json.str "m1")], rfl⟩)).1

/-- Claim C10: `login` stores the supplied credentials before the
authentication request is examined, so a login that fails with the
authentication error still replaces any previously remembered
credentials while leaving the previously stored session cookie
unchanged: the resulting state is exactly the prior state with the
credential fields replaced. -/
theorem C10_loginOnError (st : ClientState) (em pw : String) (headers : Option (List String))
    (he : (login st em pw headers).2 = Except.error authFailureMsg) :
    (login st em pw headers).1 = { st with email := some em, password := some pw }
    ∧ (login st em pw headers).1.cookie = st.cookie := by
  rcases hfind : (headers.getD []).find? jsStartsWithVlk with _ | hh
  · constructor <;> simp [login, hfind]
  · exfalso
    have hv : jsStartsWithVlk hh = true := List.find?_some hfind
    have ht := splitFirst_truthy hh hv
    simp [login, hfind, connectWS, truthyOptStr, ht] at he

/-- Witness for C10: a failing login on a state that already held
credentials and a cookie replaces the credentials and keeps the
cookie. -/
theorem C10_witness :
    (login { initialState with email := some "old", password := some "oldpw", cookie := some "vlk=old" } "new" "newpw" none).1
      = { initialState with email := some "new", password := some "newpw", cookie := some "vlk=old" } :=
  (C10_loginOnError
    { initialState with email := some "old", password := some "oldpw", cookie := some "vlk=old" }
    "new" "newpw" none rfl).1
